import Mathlib

/-!
Verification of the mlx4 userspace verbs layer (`src/verbs.c`) against its
natural-language specification.  The C functions are shallowly embedded as
Lean functions; kernel command results and allocator outcomes are passed in
explicitly (the kernel command client is an external collaborator), and the
side effects of each operation are recorded as an explicit event trace in
source order.  Command-record marshalling fields (buffer/doorbell addresses
copied into the command structs) are mechanical and elided where no claim
mentions them.
-/

namespace Mlx4

/-- Embedding of the loop `for (nent = 1; nent <= cqe; nent <<= 1) ;` from
`align_cq_size` (verbs.c:153-161).  The guard carries the loop invariant
`1 ≤ n` (the C loop starts `nent` at 1 and only doubles it), which justifies
termination. -/
def alignLoopLe (bound : Nat) (n : Nat) : Nat :=
  if _h : 1 ≤ n ∧ n ≤ bound then alignLoopLe bound (n + n) else n
termination_by bound + 1 - n
decreasing_by simp_wf; omega

/-- Embedding of the loop `for (ret = 1; ret < size + spare; ret <<= 1) ;`
from `align_queue_size` (verbs.c:248-263), with the same `1 ≤ n` invariant
recorded in the guard. -/
def alignLoopLt (bound : Nat) (n : Nat) : Nat :=
  if _h : 1 ≤ n ∧ n < bound then alignLoopLt bound (n + n) else n
termination_by bound + 1 - n
decreasing_by simp_wf; omega

/-- `align_cq_size` (verbs.c:153-161): round a completion-queue depth. -/
def align_cq_size (cqe : Nat) : Nat :=
  alignLoopLe cqe 1

/-- `align_queue_size` (verbs.c:248-263): round a QP/SRQ depth; a zero
request is returned unchanged (`if (!size) return 0;`). -/
def align_queue_size (size : Nat) (spare : Nat) : Nat :=
  if size = 0 then 0 else alignLoopLt (size + spare) 1

/-- `r` is the smallest power of two that is at least `x`. -/
def IsLeastPow2Ge (x r : Nat) : Prop :=
  (∃ k, r = 2 ^ k) ∧ x ≤ r ∧ ∀ m, (∃ k, m = 2 ^ k) → x ≤ m → r ≤ m

/-- A completion queue as seen by the locking helpers: `id` stands for the
object's identity (the `struct mlx4_cq *` pointer; two values are the same
object iff they are equal), `cqn` is the kernel-assigned CQ number
(`cq->cqn`). -/
structure CQ where
  id : Nat
  cqn : Nat
deriving DecidableEq

/-- Observable side effects of the verbs-layer operations, in source order.
`cqClean c q s` is a call `mlx4_cq_clean(c, q, s)`; `tableStore`/`tableClear`
are the `mlx4_store_qp`/`mlx4_clear_qp` resource-table calls; the `kernel…`
events are `ibv_cmd_…` commands issued to the kernel command client; the
`alloc…`/`free…` events are buffer/doorbell allocator calls and the
`free`s of the work-request id arrays and of the object itself. -/
inductive Event where
  | cqClean (cq : Nat) (qpn : Nat) (srq : Option Nat)
  | lockCq (cq : Nat)
  | unlockCq (cq : Nat)
  | tableStore (qpn : Nat)
  | tableClear (qpn : Nat)
  | allocBuf
  | allocDb
  | kernelCreateQp
  | kernelDestroyQp
  | kernelModifyQp
  | kernelCreateCq (depth : Nat)
  | freeDb
  | freeSqWrid
  | freeRqWrid
  | freeBuf
  | freeObj
deriving DecidableEq

/-- Events that release memory (doorbell, work-request id arrays, buffer,
or the object itself). -/
def Event.isFree : Event → Bool
  | .freeDb => true
  | .freeSqWrid => true
  | .freeRqWrid => true
  | .freeBuf => true
  | .freeObj => true
  | _ => false

/-- `mlx4_lock_cqs` (verbs.c:471-485), as the sequence of CQs whose locks
are acquired, in acquisition order. -/
def mlx4_lock_cqs (send_cq recv_cq : CQ) : List CQ :=
  if send_cq = recv_cq then
    [send_cq]
  else if send_cq.cqn < recv_cq.cqn then
    [send_cq, recv_cq]
  else
    [recv_cq, send_cq]

/-- `mlx4_unlock_cqs` (verbs.c:487-501), as the sequence of CQs whose locks
are released, in release order. -/
def mlx4_unlock_cqs (send_cq recv_cq : CQ) : List CQ :=
  if send_cq = recv_cq then
    [send_cq]
  else if send_cq.cqn < recv_cq.cqn then
    [recv_cq, send_cq]
  else
    [send_cq, recv_cq]

/-- A live queue pair (`struct mlx4_qp` together with the `ibv_qp` fields
the verbs layer reads): queue-pair number, its send/receive CQ references,
the optional SRQ, the send/receive producer and consumer indices, and the
buffer and doorbell addresses it owns. -/
structure MQP where
  qpn : Nat
  send_cq : CQ
  recv_cq : CQ
  srq : Option Nat
  sq_head : Nat
  sq_tail : Nat
  rq_head : Nat
  rq_tail : Nat
  buf_addr : Nat
  db_addr : Nat
deriving DecidableEq

/-- The per-context Resource Table, as an association list from queue-pair
number to the live object. -/
abbrev Table := List (Nat × MQP)

/-- Modelled from the spec: `mlx4_store_qp` (defined in qp.c, which is not
under src/) inserts the object into the Resource Table under the
queue-pair number (§4.1 "`store(id, obj)` inserts"). -/
def mlx4_store_qp (tbl : Table) (qpn : Nat) (qp : MQP) : Table :=
  (qpn, qp) :: tbl

/-- Modelled from the spec: `mlx4_clear_qp` (defined in qp.c, not under
src/) removes the entry for the queue-pair number (§4.1 "`clear(id)`
removes an entry"). -/
def mlx4_clear_qp (tbl : Table) (qpn : Nat) : Table :=
  tbl.filter (fun p => p.1 ≠ qpn)

/-- Modelled from the spec: `mlx4_find_qp` (defined in qp.c, not under
src/) returns the object registered under the queue-pair number (§4.1
"`find(id)` returns a reference"). -/
def mlx4_find_qp (tbl : Table) (qpn : Nat) : Option MQP :=
  (tbl.find? (fun p => p.1 = qpn)).map (fun p => p.2)

/-- Modelled from the spec: `mlx4_init_qp_indices` (defined in qp.c, not
under src/) reinitializes the producer/consumer indices on both the send
and the receive side to zero (§4.5 "reinitialize local producer/consumer
indices on both send and receive sides to zero"). -/
def mlx4_init_qp_indices (qp : MQP) : MQP :=
  { qp with sq_head := 0, sq_tail := 0, rq_head := 0, rq_tail := 0 }

/-- The `mlx4_cq_clean` calls made at the top of `mlx4_destroy_qp`
(verbs.c:508-511) and in the reset path of `mlx4_modify_qp`
(verbs.c:460-463): clean the receive CQ passing the QP's SRQ if any, then
the send CQ (with no SRQ) when it is a distinct object. -/
def qpCleanEvents (qp : MQP) : List Event :=
  Event.cqClean qp.recv_cq.id qp.qpn qp.srq ::
    (if qp.send_cq = qp.recv_cq then [] else [Event.cqClean qp.send_cq.id qp.qpn none])

/-- `mlx4_destroy_qp` (verbs.c:503-533).  `kernelRet` is the return code of
the `ibv_cmd_destroy_qp` kernel command.  Returns the function's return
value, the Resource Table after the call, and the event trace. -/
def mlx4_destroy_qp (tbl : Table) (qp : MQP) (kernelRet : Int) :
    Int × Table × List Event :=
  let lockEvs := (mlx4_lock_cqs qp.send_cq qp.recv_cq).map (fun c => Event.lockCq c.id)
  let unlockEvs := (mlx4_unlock_cqs qp.send_cq qp.recv_cq).map (fun c => Event.unlockCq c.id)
  let tbl1 := mlx4_clear_qp tbl qp.qpn
  if kernelRet ≠ 0 then
    (kernelRet, mlx4_store_qp tbl1 qp.qpn qp,
      qpCleanEvents qp ++ lockEvs ++ [Event.tableClear qp.qpn] ++ unlockEvs ++
        [Event.kernelDestroyQp] ++ lockEvs ++ [Event.tableStore qp.qpn] ++ unlockEvs)
  else
    (0, tbl1,
      qpCleanEvents qp ++ lockEvs ++ [Event.tableClear qp.qpn] ++ unlockEvs ++
        [Event.kernelDestroyQp, Event.freeDb, Event.freeSqWrid, Event.freeRqWrid,
         Event.freeBuf, Event.freeObj])

/-- Modelled from the spec: the `IBV_QP_STATE` bit of the verbs attribute
mask (declared in the verbs interface headers, not under src/). -/
def IBV_QP_STATE : Nat := 1

/-- Modelled from the spec: the reset state value `IBV_QPS_RESET` of the
verbs queue-pair state enumeration (headers not under src/). -/
def IBV_QPS_RESET : Nat := 0

/-- `mlx4_modify_qp` (verbs.c:449-469).  `attr_mask` and `qp_state` are the
attribute mask and requested state from `ibv_qp_attr`; `kernelRet` is the
return code of `ibv_cmd_modify_qp`.  Returns the function's return value,
the queue pair afterwards, and the event trace. -/
def mlx4_modify_qp (qp : MQP) (attr_mask : Nat) (qp_state : Nat)
    (kernelRet : Int) : Int × MQP × List Event :=
  if kernelRet = 0 ∧ attr_mask &&& IBV_QP_STATE ≠ 0 ∧ qp_state = IBV_QPS_RESET then
    (kernelRet, mlx4_init_qp_indices qp, Event.kernelModifyQp :: qpCleanEvents qp)
  else
    (kernelRet, qp, [Event.kernelModifyQp])

/-- The queue-pair creation capability attributes (`ibv_qp_cap`). -/
structure QpCap where
  max_send_wr : Nat
  max_recv_wr : Nat
  max_send_sge : Nat
  max_recv_sge : Nat
  max_inline_data : Nat
deriving DecidableEq

/-- Outcomes of the external collaborators during `mlx4_create_qp`: the
`malloc` of the object, the buffer allocation, the spinlock initializations,
the doorbell allocation, the kernel create command (return code and the
kernel-assigned queue-pair number), and the resource-table store. -/
structure QpOracle where
  mallocOk : Bool
  allocBufOk : Bool
  spinInitOk : Bool
  allocDbOk : Bool
  kernelRet : Int
  kernelQpn : Nat
  storeRet : Int

/-- The queue-pair fields set by a successful `mlx4_create_qp`: `sq_max`
and `rq_max_aligned` are the aligned sizes computed at verbs.c:375-376,
`rq_max`/`rq_max_gs` the values stored back at verbs.c:411-412, and `qpn`
the kernel-assigned queue-pair number.  (`mlx4_set_sq_sizes`, defined
outside verbs.c, adjusts send-side reporting fields and is not modelled.) -/
structure CreatedQP where
  sq_max : Nat
  rq_max_aligned : Nat
  rq_max : Nat
  rq_max_gs : Nat
  qpn : Nat
deriving DecidableEq

/-- The sanity check at the top of `mlx4_create_qp` (verbs.c:363-369),
true when the attributes are rejected. -/
def qpSanityFails (cap : QpCap) : Bool :=
  cap.max_send_wr > 65536 || cap.max_recv_wr > 65536 ||
    cap.max_send_sge > 64 || cap.max_recv_sge > 64 || cap.max_inline_data > 1024

/-- `mlx4_create_qp` (verbs.c:356-438).  Returns the created object (or
`none` on failure, the NULL return) and the event trace in source order,
including the reverse-order rollback frees of each failure path. -/
def mlx4_create_qp (cap : QpCap) (o : QpOracle) : Option CreatedQP × List Event :=
  if qpSanityFails cap then
    (none, [])
  else if ¬ o.mallocOk then
    (none, [])
  else
    let sqmax := align_queue_size cap.max_send_wr 0
    let rqmax := align_queue_size cap.max_recv_wr 0
    if ¬ o.allocBufOk then
      (none, [Event.allocBuf, Event.freeObj])
    else if ¬ o.spinInitOk then
      (none, [Event.allocBuf, Event.freeSqWrid, Event.freeRqWrid, Event.freeBuf,
              Event.freeObj])
    else if ¬ o.allocDbOk then
      (none, [Event.allocBuf, Event.allocDb, Event.freeSqWrid, Event.freeRqWrid,
              Event.freeBuf, Event.freeObj])
    else if o.kernelRet ≠ 0 then
      (none, [Event.allocBuf, Event.allocDb, Event.kernelCreateQp, Event.freeDb,
              Event.freeSqWrid, Event.freeRqWrid, Event.freeBuf, Event.freeObj])
    else if o.storeRet ≠ 0 then
      (none, [Event.allocBuf, Event.allocDb, Event.kernelCreateQp,
              Event.tableStore o.kernelQpn, Event.kernelDestroyQp, Event.freeDb,
              Event.freeSqWrid, Event.freeRqWrid, Event.freeBuf, Event.freeObj])
    else
      (some { sq_max := sqmax, rq_max_aligned := rqmax,
              rq_max := cap.max_recv_wr, rq_max_gs := cap.max_recv_sge,
              qpn := o.kernelQpn },
       [Event.allocBuf, Event.allocDb, Event.kernelCreateQp,
        Event.tableStore o.kernelQpn])

/-- Outcomes of the external collaborators during `mlx4_create_cq`. -/
structure CqOracle where
  mallocOk : Bool
  spinInitOk : Bool
  allocBufOk : Bool
  allocDbOk : Bool
  kernelRet : Int
  kernelCqn : Nat

/-- The completion-queue fields set by a successful `mlx4_create_cq`:
the consumer index, the arm sequence, the number of ring entries the
buffer was sized for, and the kernel-assigned CQ number. -/
structure CreatedCQ where
  cons_index : Nat
  arm_sn : Nat
  ringEntries : Nat
  cqn : Nat
deriving DecidableEq

/-- `mlx4_create_cq` (verbs.c:163-225).  Returns the created object (or
`none`, the NULL return) and the event trace; the kernel create command
event records the depth argument `cqe - 1` passed at verbs.c:205. -/
def mlx4_create_cq (cqe : Nat) (o : CqOracle) : Option CreatedCQ × List Event :=
  if cqe > 0x3fffff then
    (none, [])
  else if ¬ o.mallocOk then
    (none, [])
  else if ¬ o.spinInitOk then
    (none, [Event.freeObj])
  else
    let cqe' := align_cq_size cqe
    if ¬ o.allocBufOk then
      (none, [Event.allocBuf, Event.freeObj])
    else if ¬ o.allocDbOk then
      (none, [Event.allocBuf, Event.allocDb, Event.freeBuf, Event.freeObj])
    else if o.kernelRet ≠ 0 then
      (none, [Event.allocBuf, Event.allocDb, Event.kernelCreateCq (cqe' - 1),
              Event.freeDb, Event.freeBuf, Event.freeObj])
    else
      (some { cons_index := 0, arm_sn := 1, ringEntries := cqe', cqn := o.kernelCqn },
       [Event.allocBuf, Event.allocDb, Event.kernelCreateCq (cqe' - 1)])

/-- An oracle in which every collaborator succeeds; the kernel assigns
CQ number 7. -/
def goodCqOracle : CqOracle :=
  { mallocOk := true, spinInitOk := true, allocBufOk := true, allocDbOk := true,
    kernelRet := 0, kernelCqn := 7 }

/-- An oracle in which every collaborator succeeds; the kernel assigns
queue-pair number 9. -/
def goodQpOracle : QpOracle :=
  { mallocOk := true, allocBufOk := true, spinInitOk := true, allocDbOk := true,
    kernelRet := 0, kernelQpn := 9, storeRet := 0 }

/-- The grh (global routing) part of `ibv_ah_attr`. -/
structure AhGrh where
  sgid_index : Nat
  hop_limit : Nat
  traffic_class : Nat
  flow_label : Nat
  dgid : List Nat
deriving DecidableEq

/-- The path attributes `ibv_ah_attr` consumed by `mlx4_create_ah`. -/
structure AhAttr where
  dlid : Nat
  sl : Nat
  src_path_bits : Nat
  static_rate : Nat
  is_global : Bool
  port_num : Nat
  grh : AhGrh
deriving DecidableEq

/-- The packed hardware address vector `struct mlx4_av` filled in by
`mlx4_create_ah` (fields not listed in verbs.c:543-561 stay at the zero
written by the initial `memset`). -/
structure MlxAv where
  port_pd : Nat
  g_slid : Nat
  dlid : Nat
  stat_rate : Nat
  sl_tclass_flowlabel : Nat
  gid_index : Nat
  hop_limit : Nat
  dgid : List Nat
deriving DecidableEq

/-- Byte swap of a 32-bit value (`htonl` on a little-endian host). -/
def htonl (x : Nat) : Nat :=
  x % 256 * 2 ^ 24 + x / 2 ^ 8 % 256 * 2 ^ 16 + x / 2 ^ 16 % 256 * 2 ^ 8 + x / 2 ^ 24 % 256

/-- Byte swap of a 16-bit value (`htons` on a little-endian host). -/
def htons (x : Nat) : Nat :=
  x % 256 * 2 ^ 8 + x / 2 ^ 8 % 256

/-- The constant added to a nonzero static rate (`MLX4_STAT_RATE_OFFSET`,
declared in mlx4.h, which is not under src/; its value is immaterial to
every claim). -/
def MLX4_STAT_RATE_OFFSET : Nat := 5

/-- `mlx4_create_ah` (verbs.c:535-564).  `pdn` is the protection-domain
number; `mallocOk` is the outcome of the object allocation.  The packed
blob is a function of the inputs only; the event trace records that no
kernel command and no table operation is issued. -/
def mlx4_create_ah (pdn : Nat) (attr : AhAttr) (mallocOk : Bool) :
    Option MlxAv × List Event :=
  if ¬ mallocOk then
    (none, [])
  else
    let base : MlxAv :=
      { port_pd := htonl ((pdn ||| attr.port_num <<< 24) % 2 ^ 32),
        g_slid := attr.src_path_bits % 256,
        dlid := htons (attr.dlid % 2 ^ 16),
        stat_rate := if attr.static_rate ≠ 0 then
            attr.static_rate + MLX4_STAT_RATE_OFFSET else 0,
        sl_tclass_flowlabel := htonl (attr.sl <<< 28 % 2 ^ 32),
        gid_index := 0,
        hop_limit := 0,
        dgid := List.replicate 16 0 }
    if attr.is_global then
      (some { base with
          g_slid := base.g_slid ||| 0x80,
          gid_index := attr.grh.sgid_index,
          hop_limit := attr.grh.hop_limit,
          sl_tclass_flowlabel := base.sl_tclass_flowlabel |||
            htonl ((attr.grh.traffic_class <<< 20 ||| attr.grh.flow_label) % 2 ^ 32),
          dgid := attr.grh.dgid }, [])
    else
      (some base, [])

/-- `mlx4_destroy_ah` (verbs.c:566-571): frees the local object and
returns 0. -/
def mlx4_destroy_ah (_ah : MlxAv) : Int × List Event :=
  (0, [Event.freeObj])

/-- Capability attributes requesting zero-depth queues. -/
def capZero : QpCap :=
  { max_send_wr := 0, max_recv_wr := 0, max_send_sge := 0, max_recv_sge := 0,
    max_inline_data := 0 }

/-- Capability attributes with a send depth one past the limit. -/
def capOver : QpCap :=
  { max_send_wr := 65537, max_recv_wr := 0, max_send_sge := 0, max_recv_sge := 0,
    max_inline_data := 0 }

/-- Capability attributes exactly at every hardware limit. -/
def capAtLimits : QpCap :=
  { max_send_wr := 65536, max_recv_wr := 65536, max_send_sge := 64, max_recv_sge := 64,
    max_inline_data := 1024 }

/-- The queue pair produced by `mlx4_create_qp capZero goodQpOracle`. -/
def createdQpZero : CreatedQP :=
  { sq_max := 0, rq_max_aligned := 0, rq_max := 0, rq_max_gs := 0, qpn := 9 }

/-- A sample queue pair with distinct send and receive CQs and an SRQ,
used to instantiate witnesses. -/
def qpA : MQP :=
  { qpn := 11, send_cq := { id := 1, cqn := 3 }, recv_cq := { id := 2, cqn := 5 },
    srq := some 4, sq_head := 6, sq_tail := 2, rq_head := 8, rq_tail := 3,
    buf_addr := 4096, db_addr := 512 }

/-- A sample path attribute used to instantiate witnesses. -/
def ahAttrA : AhAttr :=
  { dlid := 77, sl := 3, src_path_bits := 2, static_rate := 1, is_global := true,
    port_num := 1,
    grh := { sgid_index := 0, hop_limit := 64, traffic_class := 8, flow_label := 9,
             dgid := List.replicate 16 1 } }

/-- A sample packed address vector used to instantiate witnesses. -/
def avA : MlxAv :=
  { port_pd := 0, g_slid := 0, dlid := 0, stat_rate := 0, sl_tclass_flowlabel := 0,
    gid_index := 0, hop_limit := 0, dgid := List.replicate 16 0 }

/-- Two sample completion queues with distinct identities and kernel
numbers, used to instantiate witnesses. -/
def cqA : CQ := { id := 1, cqn := 3 }

/-- Companion sample completion queue to `cqA`. -/
def cqB : CQ := { id := 2, cqn := 5 }

end Mlx4

namespace Mlx4

theorem alignLoopLt_spec (b : Nat) : ∀ n, (∃ j, n = 2 ^ j) →
    ∃ k, alignLoopLt b n = 2 ^ k ∧ n ≤ 2 ^ k ∧ b ≤ 2 ^ k ∧
      ∀ m, n ≤ 2 ^ m → b ≤ 2 ^ m → 2 ^ k ≤ 2 ^ m := by
  intro n
  induction n using alignLoopLt.induct b with
  | case1 n h ih =>
    rintro ⟨j, rfl⟩
    obtain ⟨k, hk, hnk, hbk, hmin⟩ := ih ⟨j + 1, by ring⟩
    rw [alignLoopLt, dif_pos h]
    refine ⟨k, hk, by omega, hbk, ?_⟩
    intro m hjm hbm
    have hj : (2 : Nat) ^ j < 2 ^ m := lt_of_lt_of_le h.2 hbm
    have hjm2 : j < m := (Nat.pow_lt_pow_iff_right (by omega)).mp hj
    have hle : (2 : Nat) ^ (j + 1) ≤ 2 ^ m := Nat.pow_le_pow_right (by omega) (by omega)
    rw [pow_succ] at hle
    exact hmin m (by omega) hbm
  | case2 n h =>
    rintro ⟨j, rfl⟩
    rw [alignLoopLt, dif_neg h]
    have h1 : 1 ≤ (2 : Nat) ^ j := Nat.one_le_two_pow
    have hb : b ≤ 2 ^ j := by omega
    exact ⟨j, rfl, le_refl _, hb, fun m hm _ => hm⟩

theorem alignLoopLe_eq_lt (b : Nat) : ∀ n, alignLoopLe b n = alignLoopLt (b + 1) n := by
  intro n
  induction n using alignLoopLe.induct b with
  | case1 n h ih =>
    rw [alignLoopLe, dif_pos h, alignLoopLt, dif_pos ⟨h.1, by omega⟩, ih]
  | case2 n h =>
    rw [alignLoopLe, dif_neg h, alignLoopLt, dif_neg (by omega)]

theorem alignLoopLt_least (b n : Nat) (hn : ∃ j, n = 2 ^ j) (hb : n ≤ b) :
    IsLeastPow2Ge b (alignLoopLt b n) := by
  obtain ⟨k, hk, hnk, hbk, hmin⟩ := alignLoopLt_spec b n hn
  refine ⟨⟨k, hk⟩, by omega, ?_⟩
  rintro m ⟨j, rfl⟩ hbm
  have hnm : n ≤ 2 ^ j := le_trans hb hbm
  have := hmin j hnm hbm
  omega

/-- C4, counterexample: the claim says the completion-queue rounding
returns the smallest power of two ≥ d, so a power of two comes back
unchanged; but `align_cq_size 4 = 8`, because its loop condition is
`nent <= cqe`, not `nent < cqe`. -/
theorem align_cq_size_not_least_pow2_cex : ¬ IsLeastPow2Ge 4 (align_cq_size 4) := by
  have h : align_cq_size 4 = 8 := by simp [align_cq_size, alignLoopLe]
  rw [h]
  rintro ⟨-, -, hmin⟩
  have := hmin 4 ⟨2, by norm_num⟩ (le_refl 4)
  omega

/-- C4 (amended): for every requested depth d ≥ 1, QP-style rounding
(`align_queue_size` with spare 0) returns the smallest power of two ≥ d,
SRQ-style rounding (spare 1) the smallest power of two ≥ d + 1, and the
completion-queue rounding `align_cq_size` also returns the smallest power
of two ≥ d + 1 (strictly greater than d) — a d that is already a power of
two is doubled, not returned unchanged. -/
theorem align_rounding_least_pow2 (d : Nat) (hd : 1 ≤ d) :
    IsLeastPow2Ge d (align_queue_size d 0) ∧
    IsLeastPow2Ge (d + 1) (align_queue_size d 1) ∧
    IsLeastPow2Ge (d + 1) (align_cq_size d) := by
  have hqp : align_queue_size d 0 = alignLoopLt d 1 := by
    unfold align_queue_size
    rw [if_neg (by omega), Nat.add_zero]
  have hsrq : align_queue_size d 1 = alignLoopLt (d + 1) 1 := by
    unfold align_queue_size
    rw [if_neg (by omega)]
  have hcq : align_cq_size d = alignLoopLt (d + 1) 1 := by
    unfold align_cq_size
    rw [alignLoopLe_eq_lt]
  refine ⟨?_, ?_, ?_⟩
  · rw [hqp]
    exact alignLoopLt_least d 1 ⟨0, rfl⟩ (by omega)
  · rw [hsrq]
    exact alignLoopLt_least (d + 1) 1 ⟨0, rfl⟩ (by omega)
  · rw [hcq]
    exact alignLoopLt_least (d + 1) 1 ⟨0, rfl⟩ (by omega)

theorem align_rounding_least_pow2_witness :
    1 ≤ 5 ∧
    (IsLeastPow2Ge 5 (align_queue_size 5 0) ∧
     IsLeastPow2Ge 6 (align_queue_size 5 1) ∧
     IsLeastPow2Ge 6 (align_cq_size 5)) :=
  ⟨by omega, align_rounding_least_pow2 5 (by omega)⟩

/-- C10: a requested depth of exactly 0 is not rounded up: QP/SRQ-style
rounding returns 0, and a queue pair created with zero send or receive
work requests has that side's maximum depth 0 (both the aligned size used
for the buffer and the stored receive depth). -/
theorem align_queue_size_zero :
    (∀ spare, align_queue_size 0 spare = 0) ∧
    ∀ cap o q evs, mlx4_create_qp cap o = (some q, evs) →
      (cap.max_send_wr = 0 → q.sq_max = 0) ∧
      (cap.max_recv_wr = 0 → q.rq_max_aligned = 0 ∧ q.rq_max = 0) := by
  constructor
  · intro spare
    simp [align_queue_size]
  · intro cap o q evs h
    unfold mlx4_create_qp at h
    split at h
    · simp at h
    · split at h
      · simp at h
      · split at h
        · simp at h
        · split at h
          · simp at h
          · split at h
            · simp at h
            · split at h
              · simp at h
              · split at h
                · simp at h
                · rw [Prod.mk.injEq, Option.some.injEq] at h
                  obtain ⟨rfl, -⟩ := h
                  refine ⟨fun hs => ?_, fun hr => ⟨?_, hr⟩⟩
                  · simp [hs, align_queue_size]
                  · simp [hr, align_queue_size]

theorem align_queue_size_zero_witness :
    mlx4_create_qp capZero goodQpOracle =
      (some createdQpZero,
       [Event.allocBuf, Event.allocDb, Event.kernelCreateQp, Event.tableStore 9]) ∧
    createdQpZero.sq_max = 0 := by
  have hcreate : mlx4_create_qp capZero goodQpOracle =
      (some createdQpZero,
       [Event.allocBuf, Event.allocDb, Event.kernelCreateQp, Event.tableStore 9]) := by
    simp [mlx4_create_qp, qpSanityFails, goodQpOracle, align_queue_size, capZero,
          createdQpZero]
  exact ⟨hcreate, (align_queue_size_zero.2 _ _ _ _ hcreate).1 rfl⟩

/-- C2: queue-pair creation with send depth > 65536, receive depth >
65536, send or receive scatter-gather > 64, or inline data > 1024 returns
the invalid handle with an empty side-effect trace (no allocator and no
kernel-client invocation); requests at exactly those limits pass the
sanity check. -/
theorem mlx4_create_qp_limit_check (cap : QpCap) (o : QpOracle) :
    ((cap.max_send_wr > 65536 ∨ cap.max_recv_wr > 65536 ∨ cap.max_send_sge > 64 ∨
      cap.max_recv_sge > 64 ∨ cap.max_inline_data > 1024) →
        mlx4_create_qp cap o = (none, [])) ∧
    (cap.max_send_wr ≤ 65536 → cap.max_recv_wr ≤ 65536 → cap.max_send_sge ≤ 64 →
      cap.max_recv_sge ≤ 64 → cap.max_inline_data ≤ 1024 →
        qpSanityFails cap = false) := by
  constructor
  · intro hover
    have hs : qpSanityFails cap = true := by
      simp only [qpSanityFails, Bool.or_eq_true, decide_eq_true_eq]
      omega
    unfold mlx4_create_qp
    rw [if_pos hs]
  · intro h1 h2 h3 h4 h5
    simp only [qpSanityFails, Bool.or_eq_false_iff, decide_eq_false_iff_not]
    omega

theorem mlx4_create_qp_limit_check_witness :
    mlx4_create_qp capOver goodQpOracle = (none, []) ∧
    qpSanityFails capAtLimits = false :=
  ⟨(mlx4_create_qp_limit_check capOver goodQpOracle).1 (by decide),
   (mlx4_create_qp_limit_check capAtLimits goodQpOracle).2
      (by decide) (by decide) (by decide) (by decide) (by decide)⟩

/-- C5, counterexample: the claim says a requested completion-queue depth
of exactly 2^22 is accepted, but the sanity check `cqe > 0x3fffff`
rejects it (0x3fffff = 2^22 − 1), returning the invalid handle with no
side effects even though every collaborator would succeed. -/
theorem mlx4_create_cq_pow22_rejected_cex :
    mlx4_create_cq (2 ^ 22) goodCqOracle = (none, []) := by
  unfold mlx4_create_cq
  rw [if_pos (by norm_num)]

/-- C5 (amended): completion-queue create fails, before any allocation
and with no side effects, exactly when the requested depth exceeds
2^22 − 1; a depth of at most 2^22 − 1 passes the check (and succeeds when
every collaborator succeeds). -/
theorem mlx4_create_cq_depth_limit (cqe : Nat) (o : CqOracle) :
    (2 ^ 22 - 1 < cqe → mlx4_create_cq cqe o = (none, [])) ∧
    (cqe ≤ 2 ^ 22 - 1 → ((mlx4_create_cq cqe goodCqOracle).1).isSome = true) := by
  have hhex : (0x3fffff : Nat) = 2 ^ 22 - 1 := by norm_num
  constructor
  · intro h
    unfold mlx4_create_cq
    rw [if_pos (by omega)]
  · intro h
    unfold mlx4_create_cq
    rw [if_neg (by omega)]
    simp [goodCqOracle]

theorem mlx4_create_cq_depth_limit_witness :
    mlx4_create_cq (2 ^ 23) goodCqOracle = (none, []) ∧
    ((mlx4_create_cq 100 goodCqOracle).1).isSome = true :=
  ⟨(mlx4_create_cq_depth_limit (2 ^ 23) goodCqOracle).1 (by norm_num),
   (mlx4_create_cq_depth_limit 100 goodCqOracle).2 (by norm_num)⟩

/-- C6: a successful completion-queue create with requested depth 100
allocates a 128-entry ring, passes 127 (= 128 − 1) as the kernel create
depth argument, initializes the consumer index to 0 and the arm sequence
to 1, and stores the kernel-returned CQ number on the object. -/
theorem mlx4_create_cq_depth_100 :
    mlx4_create_cq 100 goodCqOracle =
      (some { cons_index := 0, arm_sn := 1, ringEntries := 128, cqn := 7 },
       [Event.allocBuf, Event.allocDb, Event.kernelCreateCq 127]) := by
  have h128 : align_cq_size 100 = 128 := by simp [align_cq_size, alignLoopLe]
  unfold mlx4_create_cq
  rw [if_neg (by norm_num)]
  simp [goodCqOracle, h128]

theorem find_qp_store (tbl : Table) (qpn : Nat) (qp : MQP) :
    mlx4_find_qp (mlx4_store_qp tbl qpn qp) qpn = some qp := by
  simp [mlx4_find_qp, mlx4_store_qp, List.find?_cons]

theorem find_qp_clear (tbl : Table) (qpn : Nat) :
    mlx4_find_qp (mlx4_clear_qp tbl qpn) qpn = none := by
  simp only [mlx4_find_qp, mlx4_clear_qp, Option.map_eq_none', List.find?_eq_none]
  intro x hx
  rcases List.mem_filter.mp hx with ⟨-, hne⟩
  simpa using hne

theorem qpCleanEvents_no_free (qp : MQP) : ∀ e ∈ qpCleanEvents qp, e.isFree = false := by
  intro e he
  unfold qpCleanEvents at he
  rcases List.mem_cons.mp he with rfl | he
  · rfl
  · split at he
    · simp at he
    · rw [List.mem_singleton.mp he]
      rfl

theorem mapLock_no_free (l : List CQ) :
    ∀ e ∈ l.map (fun c => Event.lockCq c.id), e.isFree = false := by
  intro e he
  obtain ⟨c, -, rfl⟩ := List.mem_map.mp he
  rfl

theorem mapUnlock_no_free (l : List CQ) :
    ∀ e ∈ l.map (fun c => Event.unlockCq c.id), e.isFree = false := by
  intro e he
  obtain ⟨c, -, rfl⟩ := List.mem_map.mp he
  rfl

/-- C1: when the kernel destroy command fails, `mlx4_destroy_qp` returns
the kernel's failure code, re-inserts the object in the Resource Table
bracketed by the canonical `mlx4_lock_cqs`/`mlx4_unlock_cqs` sequences,
frees nothing (no doorbell, work-request id array, buffer, or object
release event), and leaves the queue-pair number findable in the table —
mapped to the same object, so a second destroy is possible. -/
theorem mlx4_destroy_qp_kernel_failure (tbl : Table) (qp : MQP) (ret : Int)
    (hret : ret ≠ 0) :
    (mlx4_destroy_qp tbl qp ret).1 = ret ∧
    mlx4_find_qp (mlx4_destroy_qp tbl qp ret).2.1 qp.qpn = some qp ∧
    (∀ e ∈ (mlx4_destroy_qp tbl qp ret).2.2, e.isFree = false) ∧
    (mlx4_destroy_qp tbl qp ret).2.2 =
      qpCleanEvents qp ++
      (mlx4_lock_cqs qp.send_cq qp.recv_cq).map (fun c => Event.lockCq c.id) ++
      [Event.tableClear qp.qpn] ++
      (mlx4_unlock_cqs qp.send_cq qp.recv_cq).map (fun c => Event.unlockCq c.id) ++
      [Event.kernelDestroyQp] ++
      (mlx4_lock_cqs qp.send_cq qp.recv_cq).map (fun c => Event.lockCq c.id) ++
      [Event.tableStore qp.qpn] ++
      (mlx4_unlock_cqs qp.send_cq qp.recv_cq).map (fun c => Event.unlockCq c.id) := by
  unfold mlx4_destroy_qp
  rw [if_pos hret]
  refine ⟨rfl, find_qp_store _ _ _, ?_, rfl⟩
  intro e he
  simp only [List.mem_append] at he
  rcases he with (((((((he | he) | he) | he) | he) | he) | he) | he)
  · exact qpCleanEvents_no_free qp e he
  · exact mapLock_no_free _ e he
  · rw [List.mem_singleton.mp he]; rfl
  · exact mapUnlock_no_free _ e he
  · rw [List.mem_singleton.mp he]; rfl
  · exact mapLock_no_free _ e he
  · rw [List.mem_singleton.mp he]; rfl
  · exact mapUnlock_no_free _ e he

theorem mlx4_destroy_qp_kernel_failure_witness :
    (mlx4_destroy_qp [] qpA (-1)).1 = -1 ∧
    mlx4_find_qp (mlx4_destroy_qp [] qpA (-1)).2.1 qpA.qpn = some qpA :=
  ⟨(mlx4_destroy_qp_kernel_failure [] qpA (-1) (by decide)).1,
   (mlx4_destroy_qp_kernel_failure [] qpA (-1) (by decide)).2.1⟩

/-- C3: a queue-pair destroy with a succeeding kernel command performs,
in order: clean the receive CQ for this queue-pair number (passing its
SRQ if any), clean the send CQ if it is a distinct object, take the CQ
locks in canonical order, remove the queue-pair number from the Resource
Table, release the locks, issue the kernel destroy command, and only then
release the doorbell, work-request id arrays, buffer, and object; the
queue-pair number is no longer findable afterwards. -/
theorem mlx4_destroy_qp_success_order (tbl : Table) (qp : MQP) :
    mlx4_destroy_qp tbl qp 0 =
      (0, mlx4_clear_qp tbl qp.qpn,
       Event.cqClean qp.recv_cq.id qp.qpn qp.srq ::
         ((if qp.send_cq = qp.recv_cq then []
             else [Event.cqClean qp.send_cq.id qp.qpn none]) ++
          (mlx4_lock_cqs qp.send_cq qp.recv_cq).map (fun c => Event.lockCq c.id) ++
          [Event.tableClear qp.qpn] ++
          (mlx4_unlock_cqs qp.send_cq qp.recv_cq).map (fun c => Event.unlockCq c.id) ++
          [Event.kernelDestroyQp, Event.freeDb, Event.freeSqWrid, Event.freeRqWrid,
           Event.freeBuf, Event.freeObj])) ∧
    mlx4_find_qp (mlx4_destroy_qp tbl qp 0).2.1 qp.qpn = none := by
  constructor
  · simp [mlx4_destroy_qp, qpCleanEvents, List.append_assoc]
  · simp only [mlx4_destroy_qp]
    rw [if_neg (by omega)]
    exact find_qp_clear tbl qp.qpn

/-- C7: the dual-CQ lock and unlock helpers follow the Lock-Ordering
Protocol: one acquisition when the send and receive CQ are the same
object; otherwise the two acquisitions are in strictly ascending order of
kernel-assigned CQ number, and the releases are exactly the reverse of
the acquisitions.  (Kernel-assigned CQ numbers of distinct CQs are
distinct, which is the hypothesis.) -/
theorem mlx4_cq_lock_ordering (s r : CQ) (h : s ≠ r → s.cqn ≠ r.cqn) :
    (s = r → mlx4_lock_cqs s r = [s] ∧ mlx4_unlock_cqs s r = [s]) ∧
    (s ≠ r → List.Chain' (fun a b => a.cqn < b.cqn) (mlx4_lock_cqs s r)) ∧
    mlx4_unlock_cqs s r = (mlx4_lock_cqs s r).reverse := by
  by_cases heq : s = r
  · subst heq
    simp [mlx4_lock_cqs, mlx4_unlock_cqs]
  · have hcqn := h heq
    by_cases hlt : s.cqn < r.cqn
    · refine ⟨fun hc => absurd hc heq, fun _ => ?_, ?_⟩
      · rw [mlx4_lock_cqs, if_neg heq, if_pos hlt]
        exact List.chain'_pair.mpr hlt
      · rw [mlx4_lock_cqs, mlx4_unlock_cqs, if_neg heq, if_neg heq, if_pos hlt,
            if_pos hlt]
        rfl
    · have hgt : r.cqn < s.cqn := by omega
      refine ⟨fun hc => absurd hc heq, fun _ => ?_, ?_⟩
      · rw [mlx4_lock_cqs, if_neg heq, if_neg hlt]
        exact List.chain'_pair.mpr hgt
      · rw [mlx4_lock_cqs, mlx4_unlock_cqs, if_neg heq, if_neg heq, if_neg hlt,
            if_neg hlt]
        rfl

theorem mlx4_cq_lock_ordering_witness :
    (cqA = cqB → mlx4_lock_cqs cqA cqB = [cqA] ∧ mlx4_unlock_cqs cqA cqB = [cqA]) ∧
    (cqA ≠ cqB → List.Chain' (fun a b => a.cqn < b.cqn) (mlx4_lock_cqs cqA cqB)) ∧
    mlx4_unlock_cqs cqA cqB = (mlx4_lock_cqs cqA cqB).reverse :=
  mlx4_cq_lock_ordering cqA cqB (fun _ => by decide)

/-- C8: a queue-pair modify whose mask includes the state bit, whose
target state is reset, and whose kernel command succeeds cleans the
receive CQ for this queue-pair number (passing the SRQ if any), cleans
the send CQ too when distinct, and zeroes the producer/consumer indices
on both sides while preserving the buffer and doorbell addresses; when
the kernel command fails, the mask lacks the state bit, or the target
state is not reset, the queue pair is unchanged and no cleanup happens. -/
theorem mlx4_modify_qp_reset_cleanup (qp : MQP) (mask st : Nat) (ret : Int) :
    (ret = 0 → mask &&& IBV_QP_STATE ≠ 0 → st = IBV_QPS_RESET →
      mlx4_modify_qp qp mask st ret =
        (0, { qp with sq_head := 0, sq_tail := 0, rq_head := 0, rq_tail := 0 },
         Event.kernelModifyQp :: Event.cqClean qp.recv_cq.id qp.qpn qp.srq ::
           (if qp.send_cq = qp.recv_cq then []
             else [Event.cqClean qp.send_cq.id qp.qpn none])) ∧
      (mlx4_modify_qp qp mask st ret).2.1.buf_addr = qp.buf_addr ∧
      (mlx4_modify_qp qp mask st ret).2.1.db_addr = qp.db_addr) ∧
    ((ret ≠ 0 ∨ mask &&& IBV_QP_STATE = 0 ∨ st ≠ IBV_QPS_RESET) →
      mlx4_modify_qp qp mask st ret = (ret, qp, [Event.kernelModifyQp])) := by
  constructor
  · intro h1 h2 h3
    have hc : ret = 0 ∧ mask &&& IBV_QP_STATE ≠ 0 ∧ st = IBV_QPS_RESET := ⟨h1, h2, h3⟩
    unfold mlx4_modify_qp
    rw [if_pos hc]
    subst h1
    exact ⟨rfl, rfl, rfl⟩
  · intro h
    have hn : ¬ (ret = 0 ∧ mask &&& IBV_QP_STATE ≠ 0 ∧ st = IBV_QPS_RESET) := by
      rintro ⟨a, b, c⟩
      rcases h with h | h | h
      · exact h a
      · exact b h
      · exact h c
    unfold mlx4_modify_qp
    rw [if_neg hn]

theorem mlx4_modify_qp_reset_cleanup_witness :
    mlx4_modify_qp qpA 1 0 0 =
      (0, { qpA with sq_head := 0, sq_tail := 0, rq_head := 0, rq_tail := 0 },
       Event.kernelModifyQp :: Event.cqClean qpA.recv_cq.id qpA.qpn qpA.srq ::
         (if qpA.send_cq = qpA.recv_cq then []
           else [Event.cqClean qpA.send_cq.id qpA.qpn none])) ∧
    mlx4_modify_qp qpA 1 0 1 = (1, qpA, [Event.kernelModifyQp]) :=
  ⟨((mlx4_modify_qp_reset_cleanup qpA 1 0 0).1 rfl (by decide) rfl).1,
   (mlx4_modify_qp_reset_cleanup qpA 1 0 1).2 (Or.inl (by decide))⟩

/-- C9: address-descriptor creation is a pure, deterministic function of
the protection-domain number and the path attributes — equal inputs give
identical packed blobs — it issues no kernel command and makes no table
entry (empty event trace), and address-descriptor destroy returns 0 after
merely releasing the local object. -/
theorem mlx4_create_ah_pure (pdn pdn2 : Nat) (attr attr2 : AhAttr) (m : Bool)
    (ah : MlxAv) (hp : pdn = pdn2) (ha : attr = attr2) :
    mlx4_create_ah pdn attr m = mlx4_create_ah pdn2 attr2 m ∧
    (mlx4_create_ah pdn attr m).2 = [] ∧
    (mlx4_destroy_ah ah).1 = 0 ∧ (mlx4_destroy_ah ah).2 = [Event.freeObj] := by
  subst hp
  subst ha
  refine ⟨rfl, ?_, rfl, rfl⟩
  unfold mlx4_create_ah
  by_cases hm : m <;> by_cases hg : attr.is_global <;> simp [hm, hg]

theorem mlx4_create_ah_pure_witness :
    mlx4_create_ah 5 ahAttrA true = mlx4_create_ah 5 ahAttrA true ∧
    (mlx4_create_ah 5 ahAttrA true).2 = [] ∧
    (mlx4_destroy_ah avA).1 = 0 ∧ (mlx4_destroy_ah avA).2 = [Event.freeObj] :=
  mlx4_create_ah_pure 5 5 ahAttrA ahAttrA true avA rfl rfl

end Mlx4
